import Mathlib

/-!
Verification of the transport/protocol layer of a libvirt RPC client
(`src/proto.rs`).  The file embeds the message codec (`LibvirtCodec`),
the demultiplexing transport (`LibvirtTransport`) and the event router
shallowly in Lean and proves the testable properties of the design
document about them.

Bytes are modelled as `Nat` (each byte `< 256` where produced by the
encoder); machine integers are `Nat`/`Int` with explicit `% 2 ^ w`
where the code casts.
-/

/-- Error kinds of `std::io::Error` that the code constructs.  The codec
and the event-delivery path always use `ErrorKind::InvalidInput`. -/
inductive IoErrorKind where
  | invalidInput
  | other
deriving DecidableEq, Repr

/-- A `std::io::Error`: a kind plus the message produced by `to_string()`. -/
structure IoError where
  kind : IoErrorKind
  msg : String
deriving DecidableEq, Repr

/-- Modelled from the spec: the generated schema enumeration
`virNetMessageType` (message-type discriminant `CALL / REPLY / EVENT /
STREAM / …`) is not under `src/`; modelled with the wire codes of the
libvirt protocol. -/
inductive virNetMessageType where
  | VIR_NET_CALL
  | VIR_NET_REPLY
  | VIR_NET_MESSAGE
  | VIR_NET_STREAM
  | VIR_NET_CALL_WITH_FDS
  | VIR_NET_REPLY_WITH_FDS
  | VIR_NET_STREAM_HOLE
deriving DecidableEq, Repr

/-- Wire code of a message-type discriminant. -/
def virNetMessageType.code : virNetMessageType → Nat
  | .VIR_NET_CALL => 0
  | .VIR_NET_REPLY => 1
  | .VIR_NET_MESSAGE => 2
  | .VIR_NET_STREAM => 3
  | .VIR_NET_CALL_WITH_FDS => 4
  | .VIR_NET_REPLY_WITH_FDS => 5
  | .VIR_NET_STREAM_HOLE => 6

/-- Checked conversion from a wire code: `none` for an unrecognized
message-type discriminant. -/
def virNetMessageType.ofCode : Nat → Option virNetMessageType
  | 0 => some .VIR_NET_CALL
  | 1 => some .VIR_NET_REPLY
  | 2 => some .VIR_NET_MESSAGE
  | 3 => some .VIR_NET_STREAM
  | 4 => some .VIR_NET_CALL_WITH_FDS
  | 5 => some .VIR_NET_REPLY_WITH_FDS
  | 6 => some .VIR_NET_STREAM_HOLE
  | _ => none

/-- Modelled from the spec: the generated status enumeration
`virNetMessageStatus` (the header's status field) is not under `src/`. -/
inductive virNetMessageStatus where
  | VIR_NET_OK
  | VIR_NET_ERROR
  | VIR_NET_CONTINUE
deriving DecidableEq, Repr

/-- Wire code of a status discriminant. -/
def virNetMessageStatus.code : virNetMessageStatus → Nat
  | .VIR_NET_OK => 0
  | .VIR_NET_ERROR => 1
  | .VIR_NET_CONTINUE => 2

/-- Checked conversion from a wire code: `none` for an unrecognized
status discriminant. -/
def virNetMessageStatus.ofCode : Nat → Option virNetMessageStatus
  | 0 => some .VIR_NET_OK
  | 1 => some .VIR_NET_ERROR
  | 2 => some .VIR_NET_CONTINUE
  | _ => none

/-- Modelled from the spec: the recognized procedure discriminants.  The
generated `remote_procedure` enumeration is not under `src/`; the spec
says the procedure identifier is a 32-bit value naming either an RPC
call or an event kind, and that an unrecognized procedure discriminant
is a decode error.  Modelled as the contiguous range of the libvirt
procedure numbering of the era, which contains the lifecycle-callback
procedure. -/
def remote_procedure_recognized (p : Nat) : Bool :=
  1 ≤ p && p ≤ 350

/-- Modelled from the spec: the procedure code of the domain lifecycle
event callback (`REMOTE_PROC_DOMAIN_EVENT_CALLBACK_LIFECYCLE`). -/
def REMOTE_PROC_DOMAIN_EVENT_CALLBACK_LIFECYCLE : Nat := 348

/-- Modelled from the spec: the fixed-layout binary header
`request::virNetMessageHeader` is not under `src/`.  Per the spec it
holds a correlation id (`serial`, u32), a procedure identifier (32-bit),
a message-type discriminant, a status field, plus protocol-specific
addressing fields (`prog`, `vers`). -/
structure virNetMessageHeader where
  prog : Nat
  vers : Nat
  proc_ : Nat
  type_ : virNetMessageType
  serial : Nat
  status : virNetMessageStatus
deriving DecidableEq, Repr

/-- Big-endian bytes of a 32-bit word. -/
def be32 (n : Nat) : List Nat :=
  [n / 2 ^ 24 % 256, n / 2 ^ 16 % 256, n / 2 ^ 8 % 256, n % 256]

/-- Read a big-endian 32-bit word from the front of a byte list
(missing bytes read as 0; the callers check lengths first). -/
def readBe32 (l : List Nat) : Nat :=
  ((l.getD 0 0 * 256 + l.getD 1 0) * 256 + l.getD 2 0) * 256 + l.getD 3 0

/-- The header's encoded byte length, the protocol constant used to
locate the payload boundary inside a frame. -/
def HEADER_LEN : Nat := 24

/-- Modelled from the spec: XDR serialization of the header — six
big-endian 32-bit words in fixed order. -/
def virNetMessageHeader.pack (h : virNetMessageHeader) : List Nat :=
  be32 h.prog ++ be32 h.vers ++ be32 h.proc_ ++ be32 h.type_.code ++
    be32 h.serial ++ be32 h.status.code

/-- Modelled from the spec: XDR deserialization of the header from the
front of a frame.  Fails (as the xdr layer's error, later classified
`InvalidInput` by the codec) when the frame is shorter than the header
length or a type / status / procedure discriminant is unrecognized.
Returns the header and the number of bytes consumed. -/
def virNetMessageHeader.unpack (buf : List Nat) :
    Except String (virNetMessageHeader × Nat) :=
  if buf.length < HEADER_LEN then .error "unexpected end of file"
  else
    match virNetMessageType.ofCode (readBe32 (buf.drop 12)) with
    | none => .error "invalid message type discriminant"
    | some t =>
      match virNetMessageStatus.ofCode (readBe32 (buf.drop 20)) with
      | none => .error "invalid message status discriminant"
      | some st =>
        if remote_procedure_recognized (readBe32 (buf.drop 8)) then
          .ok ({ prog := readBe32 buf, vers := readBe32 (buf.drop 4),
                 proc_ := readBe32 (buf.drop 8), type_ := t,
                 serial := readBe32 (buf.drop 16), status := st }, HEADER_LEN)
        else .error "unrecognized procedure discriminant"

/-- A header respecting the fixed layout: every numeric field fits the
wire's 32-bit fields and the procedure discriminant is recognized. -/
def virNetMessageHeader.Wf (h : virNetMessageHeader) : Prop :=
  h.prog < 2 ^ 32 ∧ h.vers < 2 ^ 32 ∧ h.proc_ < 2 ^ 32 ∧
    h.serial < 2 ^ 32 ∧ remote_procedure_recognized h.proc_ = true

instance (h : virNetMessageHeader) : Decidable h.Wf := by
  unfold virNetMessageHeader.Wf; infer_instance

/-- `LibvirtRequest` of `src/proto.rs`: header plus opaque payload. -/
structure LibvirtRequest where
  header : virNetMessageHeader
  payload : List Nat
deriving DecidableEq, Repr

/-- `LibvirtResponse` of `src/proto.rs`: header plus opaque payload. -/
structure LibvirtResponse where
  header : virNetMessageHeader
  payload : List Nat
deriving DecidableEq, Repr

/-- `LibvirtCodec::encode` of `src/proto.rs`: overwrite `header.serial`
with the multiplex id cast `as u32`, pack the header, then append the
payload bytes.  (The Rust writer into a growable buffer cannot fail.) -/
def LibvirtCodec.encode (id : Nat) (req : LibvirtRequest) : List Nat :=
  virNetMessageHeader.pack { req.header with serial := id % 2 ^ 32 } ++
    req.payload

/-- `LibvirtCodec::decode` of `src/proto.rs`: unpack the header from the
front of the frame, classify an unpack failure as `InvalidInput`, and
split the remainder off as the payload (`buf.split_off(hlen)`). -/
def LibvirtCodec.decode (buf : List Nat) :
    Except IoError (Option (Nat × LibvirtResponse)) :=
  match virNetMessageHeader.unpack buf with
  | .error e => .error ⟨.invalidInput, e⟩
  | .ok (header, hlen) =>
      .ok (some (header.serial, { header := header, payload := buf.drop hlen }))

theorem readBe32_be32_append (n : Nat) (l : List Nat) (hn : n < 2 ^ 32) :
    readBe32 (be32 n ++ l) = n := by
  simp only [be32, readBe32, List.cons_append, List.getD_cons_zero,
    List.getD_cons_succ]
  omega

theorem drop4_be32_append (n : Nat) (l : List Nat) :
    (be32 n ++ l).drop 4 = l := by
  simp [be32]

theorem length_be32 (n : Nat) : (be32 n).length = 4 := by
  simp [be32]

theorem length_pack (h : virNetMessageHeader) :
    (virNetMessageHeader.pack h).length = HEADER_LEN := by
  simp [virNetMessageHeader.pack, be32, HEADER_LEN]

theorem virNetMessageType_ofCode_code (t : virNetMessageType) :
    virNetMessageType.ofCode t.code = some t := by
  cases t <;> rfl

theorem virNetMessageStatus_ofCode_code (s : virNetMessageStatus) :
    virNetMessageStatus.ofCode s.code = some s := by
  cases s <;> rfl

theorem virNetMessageType_code_lt (t : virNetMessageType) :
    t.code < 2 ^ 32 := by
  cases t <;> decide

theorem virNetMessageStatus_code_lt (s : virNetMessageStatus) :
    s.code < 2 ^ 32 := by
  cases s <;> decide

/-- Unpacking an encoded header from the front of any frame recovers the
header exactly and consumes `HEADER_LEN` bytes. -/
theorem virNetMessageHeader.unpack_pack (h : virNetMessageHeader)
    (p : List Nat) (hw : h.Wf) :
    virNetMessageHeader.unpack (virNetMessageHeader.pack h ++ p) =
      .ok (h, HEADER_LEN) := by
  obtain ⟨hprog, hvers, hproc, hserial, hrec⟩ := hw
  have e0 : virNetMessageHeader.pack h ++ p =
      be32 h.prog ++ (be32 h.vers ++ (be32 h.proc_ ++ (be32 h.type_.code ++
        (be32 h.serial ++ (be32 h.status.code ++ p))))) := by
    simp [virNetMessageHeader.pack, List.append_assoc]
  have hlen : (virNetMessageHeader.pack h ++ p).length = HEADER_LEN + p.length := by
    simp [length_pack]
  have hd4 : (virNetMessageHeader.pack h ++ p).drop 4 =
      be32 h.vers ++ (be32 h.proc_ ++ (be32 h.type_.code ++
        (be32 h.serial ++ (be32 h.status.code ++ p)))) := by
    rw [e0, drop4_be32_append]
  have hd8 : (virNetMessageHeader.pack h ++ p).drop 8 =
      be32 h.proc_ ++ (be32 h.type_.code ++
        (be32 h.serial ++ (be32 h.status.code ++ p))) := by
    rw [show (8 : Nat) = 4 + 4 by rfl, ← List.drop_drop, hd4, drop4_be32_append]
  have hd12 : (virNetMessageHeader.pack h ++ p).drop 12 =
      be32 h.type_.code ++ (be32 h.serial ++ (be32 h.status.code ++ p)) := by
    rw [show (12 : Nat) = 8 + 4 by rfl, ← List.drop_drop, hd8, drop4_be32_append]
  have hd16 : (virNetMessageHeader.pack h ++ p).drop 16 =
      be32 h.serial ++ (be32 h.status.code ++ p) := by
    rw [show (16 : Nat) = 12 + 4 by rfl, ← List.drop_drop, hd12, drop4_be32_append]
  have hd20 : (virNetMessageHeader.pack h ++ p).drop 20 =
      be32 h.status.code ++ p := by
    rw [show (20 : Nat) = 16 + 4 by rfl, ← List.drop_drop, hd16, drop4_be32_append]
  rw [virNetMessageHeader.unpack]
  rw [hlen]
  rw [if_neg (by omega)]
  rw [hd4, hd8, hd12, hd16, hd20]
  rw [readBe32_be32_append _ _ (virNetMessageType_code_lt _),
    virNetMessageType_ofCode_code]
  rw [readBe32_be32_append _ _ (virNetMessageStatus_code_lt _),
    virNetMessageStatus_ofCode_code]
  rw [readBe32_be32_append _ _ hproc]
  rw [e0, readBe32_be32_append _ _ hprog]
  rw [readBe32_be32_append _ _ hvers, readBe32_be32_append _ _ hserial]
  simp [hrec]

/-- C1: Encode/decode round trip: encoding `(id = N, H, P)` for a header
`H` and payload `P` respecting the fixed layout (with `N` fitting the
wire's 32-bit serial field) and decoding the resulting bytes yields a
message whose serial is `N`, whose other header fields equal those of
`H`, and whose payload bytes are exactly `P`. -/
theorem encode_decode_roundtrip (N : Nat) (req : LibvirtRequest)
    (hN : N < 2 ^ 32) (hw : req.header.Wf) :
    LibvirtCodec.decode (LibvirtCodec.encode N req) =
      .ok (some (N, { header := { req.header with serial := N },
                      payload := req.payload })) := by
  have hw' : virNetMessageHeader.Wf { req.header with serial := N } := by
    obtain ⟨h1, h2, h3, h4, h5⟩ := hw
    exact ⟨h1, h2, h3, hN, h5⟩
  have hdrop : ∀ (hh : virNetMessageHeader) (l : List Nat),
      (virNetMessageHeader.pack hh ++ l).drop HEADER_LEN = l := by
    intro hh l
    rw [← length_pack hh]
    exact List.drop_left _ _
  simp only [LibvirtCodec.decode, LibvirtCodec.encode, Nat.mod_eq_of_lt hN,
    virNetMessageHeader.unpack_pack _ _ hw', hdrop]

/-- C1 witness. -/
theorem encode_decode_roundtrip_witness :
    LibvirtCodec.decode (LibvirtCodec.encode 5
        { header := { prog := 1, vers := 1, proc_ := 2,
                      type_ := .VIR_NET_CALL, serial := 9,
                      status := .VIR_NET_OK },
          payload := [10, 20, 30] }) =
      .ok (some (5, { header := { prog := 1, vers := 1, proc_ := 2,
                                  type_ := .VIR_NET_CALL, serial := 5,
                                  status := .VIR_NET_OK },
                      payload := [10, 20, 30] })) :=
  encode_decode_roundtrip 5
    { header := { prog := 1, vers := 1, proc_ := 2, type_ := .VIR_NET_CALL,
                  serial := 9, status := .VIR_NET_OK },
      payload := [10, 20, 30] }
    (by decide) (by decide)

/-- C7: `LibvirtCodec::encode` overwrites the request header's serial
field with the multiplex id cast to 32 bits (so ids `≥ 2 ^ 32` silently
truncate), serializes the header, and appends the payload bytes
unchanged; every header field other than serial is preserved, as
unpacking the encoded bytes shows. -/
theorem encode_overwrites_serial (id : Nat) (req : LibvirtRequest)
    (hw : req.header.Wf) :
    virNetMessageHeader.unpack (LibvirtCodec.encode id req) =
        .ok ({ req.header with serial := id % 2 ^ 32 }, HEADER_LEN) ∧
      (LibvirtCodec.encode id req).drop HEADER_LEN = req.payload := by
  have hw' : virNetMessageHeader.Wf { req.header with serial := id % 2 ^ 32 } := by
    obtain ⟨h1, h2, h3, h4, h5⟩ := hw
    exact ⟨h1, h2, h3, Nat.mod_lt _ (by norm_num), h5⟩
  refine ⟨?_, ?_⟩
  · exact virNetMessageHeader.unpack_pack _ _ hw'
  · rw [LibvirtCodec.encode, ← length_pack { req.header with serial := id % 2 ^ 32 }]
    exact List.drop_left _ _

/-- C7 witness: a multiplex id larger than 32 bits is silently truncated
(`2 ^ 32 + 7` becomes serial `7`). -/
theorem encode_overwrites_serial_witness :
    virNetMessageHeader.unpack (LibvirtCodec.encode (2 ^ 32 + 7)
        { header := { prog := 1, vers := 1, proc_ := 2,
                      type_ := .VIR_NET_CALL, serial := 9,
                      status := .VIR_NET_OK },
          payload := [42] }) =
        .ok ({ prog := 1, vers := 1, proc_ := 2, type_ := .VIR_NET_CALL,
               serial := 7, status := .VIR_NET_OK }, HEADER_LEN) ∧
      (LibvirtCodec.encode (2 ^ 32 + 7)
        { header := { prog := 1, vers := 1, proc_ := 2,
                      type_ := .VIR_NET_CALL, serial := 9,
                      status := .VIR_NET_OK },
          payload := [42] }).drop HEADER_LEN = [42] :=
  encode_overwrites_serial (2 ^ 32 + 7)
    { header := { prog := 1, vers := 1, proc_ := 2, type_ := .VIR_NET_CALL,
                  serial := 9, status := .VIR_NET_OK },
      payload := [42] }
    (by decide)

/-- C3: `LibvirtCodec::decode` returns an error classified
`InvalidInput` whenever the frame is shorter than the header length or
the header contains an unrecognized message-type or procedure
discriminant; it never yields a message for such a frame. -/
theorem decode_invalid_input (buf : List Nat)
    (h : buf.length < HEADER_LEN ∨
      virNetMessageType.ofCode (readBe32 (buf.drop 12)) = none ∨
      remote_procedure_recognized (readBe32 (buf.drop 8)) = false) :
    ∃ e : IoError, LibvirtCodec.decode buf = .error e ∧
      e.kind = .invalidInput := by
  rw [LibvirtCodec.decode, virNetMessageHeader.unpack]
  by_cases hlen : buf.length < HEADER_LEN
  · rw [if_pos hlen]
    exact ⟨_, rfl, rfl⟩
  · rw [if_neg hlen]
    rcases h with h | h | h
    · exact absurd h hlen
    · rw [h]
      exact ⟨_, rfl, rfl⟩
    · cases ht : virNetMessageType.ofCode (readBe32 (buf.drop 12)) with
      | none => exact ⟨_, rfl, rfl⟩
      | some t =>
        cases hs : virNetMessageStatus.ofCode (readBe32 (buf.drop 20)) with
        | none => exact ⟨_, rfl, rfl⟩
        | some st =>
          refine ⟨⟨.invalidInput, "unrecognized procedure discriminant"⟩, ?_, rfl⟩
          simp [h]

/-- C3 witness: the empty frame (shorter than the header) is rejected as
invalid input. -/
theorem decode_invalid_input_witness :
    ∃ e : IoError, LibvirtCodec.decode [] = .error e ∧
      e.kind = .invalidInput :=
  decode_invalid_input [] (Or.inl (by decide))

/-- Two's-complement reading of a 32-bit word as an `i32`. -/
def sign32 (w : Nat) : Int :=
  if w < 2 ^ 31 then (w : Int) else (w : Int) - 2 ^ 32

/-- The decoded event value carried to subscribers
(`request::DomainEvent`).  Modelled from the spec: the generated type is
not under `src/`; the spec only requires a decoded event value derived
from the lifecycle message. -/
structure DomainEvent where
  event : Int
  detail : Int
deriving DecidableEq, Repr

/-- Modelled from the spec: the generated schema type
`remote_domain_event_callback_lifecycle_msg` is not under `src/`.  The
spec says event payloads embed a 32-bit callback identifier and are
decoded by the external schema layer; modelled as the callback id
followed by the event and detail fields. -/
structure remote_domain_event_callback_lifecycle_msg where
  callbackID : Int
  event : Int
  detail : Int
deriving DecidableEq, Repr

/-- Modelled from the spec: XDR deserialization of the lifecycle event
message from the payload bytes — three big-endian 32-bit words; fails
when the payload is shorter than the fixed message size. -/
def remote_domain_event_callback_lifecycle_msg.unpack (buf : List Nat) :
    Except String (remote_domain_event_callback_lifecycle_msg × Nat) :=
  if buf.length < 12 then .error "unexpected end of file"
  else .ok ({ callbackID := sign32 (readBe32 buf),
              event := sign32 (readBe32 (buf.drop 4)),
              detail := sign32 (readBe32 (buf.drop 8)) }, 12)

/-- The `msg.into()` conversion from the lifecycle message to the
decoded event value pushed into a subscriber's channel. -/
def remote_domain_event_callback_lifecycle_msg.into
    (m : remote_domain_event_callback_lifecycle_msg) : DomainEvent :=
  { event := m.event, detail := m.detail }

/-- A `futures::sync::mpsc::Sender` endpoint of a subscriber's bounded
channel.  `start_send` has three outcomes: `Err(SendError)` when the
receiver is gone (`closed`), `Ok(AsyncSink::NotReady(msg))` when the
bounded channel is at capacity and the sender parked (`full`) — the
value is handed back un-enqueued — and `Ok(AsyncSink::Ready)` when the
value is enqueued (`sent` records the values delivered so far). -/
structure Sender where
  closed : Bool
  full : Bool
  sent : List DomainEvent
deriving DecidableEq, Repr

/-- The shared event-router table
(`Arc<Mutex<HashMap<i32, Sender<DomainEvent>>>>`), modelled as an
association list from callback id to channel send-endpoint. -/
abbrev EventMap := List (Int × Sender)

/-- `HashMap::get_mut`: first-match lookup of a callback id. -/
def EventMap.lookup : EventMap → Int → Option Sender
  | [], _ => none
  | (k, s) :: rest, key =>
      if k = key then some s else EventMap.lookup rest key

/-- In-place mutation of the entry found by `get_mut`. -/
def EventMap.update : EventMap → Int → Sender → EventMap
  | [], _, _ => []
  | (k, s) :: rest, key, s' =>
      if k = key then (k, s') :: rest
      else (k, s) :: EventMap.update rest key s'

/-- Outcome of `LibvirtTransport::process_event`: `Ok(consumed)` with
the updated router state, an `io::Error`, or a Rust panic (the `unwrap`
on the payload unpack). -/
inductive PEOut where
  | ok (consumed : Bool) (events : EventMap)
  | err (e : IoError)
  | panicked
deriving DecidableEq, Repr

/-- `LibvirtTransport::process_event` of `src/proto.rs`: reinterpret the
header's procedure (cast `as u16`) and, for the lifecycle-callback
procedure, unpack the payload (`unwrap` — a malformed payload panics),
look the embedded callback id up in the router and, when registered,
push the converted value into the subscriber's channel
(`start_send` + `poll_complete`, each `Err` mapped to an `InvalidInput`
io error by `try!`).  A `start_send` that returns
`Ok(AsyncSink::NotReady(msg))` — the bounded channel at capacity — is an
unused `Ok` expression in the source: the handed-back value is discarded
and the event silently lost, with the frame still counted as consumed.
Returns whether the frame was consumed. -/
def LibvirtTransport.process_event (events : EventMap)
    (resp : LibvirtResponse) : PEOut :=
  if resp.header.proc_ % 2 ^ 16 = REMOTE_PROC_DOMAIN_EVENT_CALLBACK_LIFECYCLE then
    match remote_domain_event_callback_lifecycle_msg.unpack resp.payload with
    | .error _ => .panicked
    | .ok (msg, _) =>
      match EventMap.lookup events msg.callbackID with
      | some sender =>
          if sender.closed then
            .err ⟨.invalidInput, "send failed because receiver is gone"⟩
          else if sender.full then
            .ok true events
          else
            .ok true (EventMap.update events msg.callbackID
              { sender with sent := sender.sent ++ [msg.into] })
      | none => .ok true events
  else .ok false events

/-- `LibvirtTransport::process_stream` of `src/proto.rs`: a message is
stream traffic exactly when its type discriminant is `VIR_NET_STREAM`. -/
def LibvirtTransport.process_stream (resp : LibvirtResponse) : Bool :=
  resp.header.type_ == virNetMessageType.VIR_NET_STREAM

/-- One pending poll outcome of the underlying length-delimited framed
stream (`length_delimited::Framed`, the Frame Layer of the spec): a
complete frame's bytes (after the 4-byte big-endian length prefix has
been stripped), not-ready, or a transport I/O error.  The underlying
stream is modelled as the queue of its future outcomes; the empty queue
is clean end-of-input, which the framed stream reports as `Ready(None)`
on every poll. -/
inductive InnerPoll where
  | frame (buf : List Nat)
  | notReady
  | ioErr (e : IoError)
deriving DecidableEq, Repr

/-- Result of one `LibvirtTransport::poll`: `Ready` (a reply or stream
completion), `NotReady`, an error, or a Rust panic. -/
inductive PollOut where
  | ready (item : Option (Nat × LibvirtResponse))
  | notReady
  | err (e : IoError)
  | panicked
deriving DecidableEq, Repr

/-- `LibvirtTransport::poll` of `src/proto.rs` (composed with
`FramedTransport::poll`): pull the next frame from the framed stream,
decode it, consume event and stream traffic (recursing to the next
frame), and surface everything else as a reply.  Returns the poll
outcome together with the remaining framed-stream queue and the router
state. -/
def LibvirtTransport.poll :
    List InnerPoll → EventMap → PollOut × List InnerPoll × EventMap
  | [], events => (.ready none, [], events)
  | .notReady :: rest, events => (.notReady, rest, events)
  | .ioErr e :: rest, events => (.err e, rest, events)
  | .frame buf :: rest, events =>
    match LibvirtCodec.decode buf with
    | .error e => (.err e, rest, events)
    | .ok none => (.ready none, rest, events)
    | .ok (some (id, resp)) =>
      match LibvirtTransport.process_event events resp with
      | .panicked => (.panicked, rest, events)
      | .err e => (.err e, rest, events)
      | .ok true events' => LibvirtTransport.poll rest events'
      | .ok false events' =>
        if LibvirtTransport.process_stream resp then
          LibvirtTransport.poll rest events'
        else (.ready (some (id, resp)), rest, events')

/-- Iterated polling: `pollN n` performs `n + 1` successive calls of
`LibvirtTransport::poll`, threading the state through. -/
def LibvirtTransport.pollN :
    Nat → List InnerPoll → EventMap → PollOut × List InnerPoll × EventMap
  | 0, frames, events => LibvirtTransport.poll frames events
  | n + 1, frames, events =>
      let r := LibvirtTransport.poll frames events
      LibvirtTransport.pollN n r.2.1 r.2.2

theorem process_event_delivers (events : EventMap) (resp : LibvirtResponse)
    (msg : remote_domain_event_callback_lifecycle_msg) (n : Nat) (sender : Sender)
    (hproc : resp.header.proc_ % 2 ^ 16 =
      REMOTE_PROC_DOMAIN_EVENT_CALLBACK_LIFECYCLE)
    (hmsg : remote_domain_event_callback_lifecycle_msg.unpack resp.payload =
      .ok (msg, n))
    (hlook : EventMap.lookup events msg.callbackID = some sender)
    (hopen : sender.closed = false) (hroom : sender.full = false) :
    LibvirtTransport.process_event events resp =
      .ok true (EventMap.update events msg.callbackID
        { sender with sent := sender.sent ++ [msg.into] }) := by
  simp only [LibvirtTransport.process_event, hproc, if_pos, hmsg, hlook, hopen,
    hroom, Bool.false_eq_true, if_false, if_true]

/-- C2 counterexample: a lifecycle event frame for registered callback
id 3 whose open channel is at capacity is consumed with the subscriber's
channel unchanged — nothing is delivered — so one poll does not deliver
a decoded value into the registered subscriber's channel as the claim
states. -/
theorem poll_event_full_channel_drops :
    LibvirtTransport.poll
        [InnerPoll.frame (virNetMessageHeader.pack
            { prog := 1, vers := 1, proc_ := 348,
              type_ := .VIR_NET_MESSAGE, serial := 7,
              status := .VIR_NET_OK } ++
          [0, 0, 0, 3, 0, 0, 0, 1, 0, 0, 0, 2])]
        [(3, { closed := false, full := true, sent := [] })] =
        (.ready none, [], [(3, { closed := false, full := true, sent := [] })]) ∧
      LibvirtTransport.poll
          [InnerPoll.frame (virNetMessageHeader.pack
              { prog := 1, vers := 1, proc_ := 348,
                type_ := .VIR_NET_MESSAGE, serial := 7,
                status := .VIR_NET_OK } ++
            [0, 0, 0, 3, 0, 0, 0, 1, 0, 0, 0, 2])]
          [(3, { closed := false, full := true, sent := [] })] ≠
        LibvirtTransport.poll []
          (EventMap.update [(3, { closed := false, full := true, sent := [] })] 3
            { closed := false, full := true,
              sent := [{ event := 1, detail := 2 }] }) := by
  decide

/-- C2 (amended): a frame that decodes to a message whose embedded
callback id is registered in the event router with an open channel that
is not at capacity is consumed by one poll: exactly one decoded event
value is appended to that subscriber's channel and the poll outcome is
whatever the remaining frames yield — the frame itself is never surfaced
as a reply.  (When the bounded channel is at capacity, the rejected send
is silently discarded instead.) -/
theorem poll_event_registered_delivers_once
    (F : List Nat) (rest : List InnerPoll) (events : EventMap) (id : Nat)
    (resp : LibvirtResponse)
    (msg : remote_domain_event_callback_lifecycle_msg) (n : Nat) (sender : Sender)
    (hdec : LibvirtCodec.decode F = .ok (some (id, resp)))
    (hproc : resp.header.proc_ % 2 ^ 16 =
      REMOTE_PROC_DOMAIN_EVENT_CALLBACK_LIFECYCLE)
    (hmsg : remote_domain_event_callback_lifecycle_msg.unpack resp.payload =
      .ok (msg, n))
    (hlook : EventMap.lookup events msg.callbackID = some sender)
    (hopen : sender.closed = false) (hroom : sender.full = false) :
    LibvirtTransport.poll (InnerPoll.frame F :: rest) events =
      LibvirtTransport.poll rest
        (EventMap.update events msg.callbackID
          { sender with sent := sender.sent ++ [msg.into] }) := by
  simp only [LibvirtTransport.poll, hdec,
    process_event_delivers events resp msg n sender hproc hmsg hlook hopen hroom]

/-- C2 witness: a lifecycle event frame for registered callback id 3
(open channel with room) is routed into that subscriber's channel and
not surfaced. -/
theorem poll_event_registered_delivers_once_witness :
    LibvirtTransport.poll
        [InnerPoll.frame (virNetMessageHeader.pack
            { prog := 1, vers := 1, proc_ := 348,
              type_ := .VIR_NET_MESSAGE, serial := 7,
              status := .VIR_NET_OK } ++
          [0, 0, 0, 3, 0, 0, 0, 1, 0, 0, 0, 2])]
        [(3, { closed := false, full := false, sent := [] })] =
      LibvirtTransport.poll []
        [(3, { closed := false, full := false,
               sent := [{ event := 1, detail := 2 }] })] :=
  poll_event_registered_delivers_once
    (virNetMessageHeader.pack
        { prog := 1, vers := 1, proc_ := 348, type_ := .VIR_NET_MESSAGE,
          serial := 7, status := .VIR_NET_OK } ++
      [0, 0, 0, 3, 0, 0, 0, 1, 0, 0, 0, 2])
    [] [(3, { closed := false, full := false, sent := [] })] 7
    { header := { prog := 1, vers := 1, proc_ := 348,
                  type_ := .VIR_NET_MESSAGE, serial := 7,
                  status := .VIR_NET_OK },
      payload := [0, 0, 0, 3, 0, 0, 0, 1, 0, 0, 0, 2] }
    { callbackID := 3, event := 1, detail := 2 } 12
    { closed := false, full := false, sent := [] }
    (by rfl) (by rfl) (by rfl) (by rfl) (by rfl) (by rfl)

/-- C4: an event frame whose embedded callback id is not registered is
consumed with no delivery to any channel and no error — the router state
is unchanged and the poll outcome is whatever the remaining frames
yield, so the frame is not surfaced as a reply. -/
theorem poll_event_unregistered_dropped
    (F : List Nat) (rest : List InnerPoll) (events : EventMap) (id : Nat)
    (resp : LibvirtResponse)
    (msg : remote_domain_event_callback_lifecycle_msg) (n : Nat)
    (hdec : LibvirtCodec.decode F = .ok (some (id, resp)))
    (htype : resp.header.type_ = .VIR_NET_MESSAGE)
    (hproc : resp.header.proc_ % 2 ^ 16 =
      REMOTE_PROC_DOMAIN_EVENT_CALLBACK_LIFECYCLE)
    (hmsg : remote_domain_event_callback_lifecycle_msg.unpack resp.payload =
      .ok (msg, n))
    (hlook : EventMap.lookup events msg.callbackID = none) :
    LibvirtTransport.poll (InnerPoll.frame F :: rest) events =
      LibvirtTransport.poll rest events := by
  have hpe : LibvirtTransport.process_event events resp = .ok true events := by
    simp only [LibvirtTransport.process_event, hproc, if_pos, hmsg, hlook]
  simp only [LibvirtTransport.poll, hdec, hpe]

/-- C4 witness: a lifecycle event frame for unregistered callback id 99
is dropped with the router left empty and nothing surfaced. -/
theorem poll_event_unregistered_dropped_witness :
    LibvirtTransport.poll
        [InnerPoll.frame (virNetMessageHeader.pack
            { prog := 1, vers := 1, proc_ := 348,
              type_ := .VIR_NET_MESSAGE, serial := 9,
              status := .VIR_NET_OK } ++
          [0, 0, 0, 99, 0, 0, 0, 1, 0, 0, 0, 2])] [] =
      LibvirtTransport.poll [] [] :=
  poll_event_unregistered_dropped
    (virNetMessageHeader.pack
        { prog := 1, vers := 1, proc_ := 348, type_ := .VIR_NET_MESSAGE,
          serial := 9, status := .VIR_NET_OK } ++
      [0, 0, 0, 99, 0, 0, 0, 1, 0, 0, 0, 2])
    [] [] 9
    { header := { prog := 1, vers := 1, proc_ := 348,
                  type_ := .VIR_NET_MESSAGE, serial := 9,
                  status := .VIR_NET_OK },
      payload := [0, 0, 0, 99, 0, 0, 0, 1, 0, 0, 0, 2] }
    { callbackID := 99, event := 1, detail := 2 } 12
    (by rfl) (by rfl) (by rfl) (by rfl) (by rfl)

/-- C5 counterexample: a send rejected because the matched subscriber's
bounded channel is at capacity (`start_send` returning
`Ok(AsyncSink::NotReady)`) is silently dropped: the poll consumes the
frame and returns `Ready(None)`, not an error, refuting the claim that
every delivery failure ("channel closed or send rejected") is propagated
as an error. -/
theorem poll_full_channel_send_rejected_not_error :
    LibvirtTransport.poll
        [InnerPoll.frame (virNetMessageHeader.pack
            { prog := 1, vers := 1, proc_ := 348,
              type_ := .VIR_NET_MESSAGE, serial := 6,
              status := .VIR_NET_OK } ++
          [0, 0, 0, 6, 0, 0, 0, 1, 0, 0, 0, 2])]
        [(6, { closed := false, full := true, sent := [] })] =
      (.ready none, [], [(6, { closed := false, full := true, sent := [] })]) := by
  decide

/-- C5 (amended): only the closed-channel delivery failure
(`start_send` returning `Err(SendError)`) makes `LibvirtTransport::poll`
return an error, propagated as a connection-fatal transport error
classified `InvalidInput`; a send rejected because the bounded channel
is at capacity is silently dropped instead (see the counterexample). -/
theorem poll_event_delivery_failure_errors
    (F : List Nat) (rest : List InnerPoll) (events : EventMap) (id : Nat)
    (resp : LibvirtResponse)
    (msg : remote_domain_event_callback_lifecycle_msg) (n : Nat) (sender : Sender)
    (hdec : LibvirtCodec.decode F = .ok (some (id, resp)))
    (hproc : resp.header.proc_ % 2 ^ 16 =
      REMOTE_PROC_DOMAIN_EVENT_CALLBACK_LIFECYCLE)
    (hmsg : remote_domain_event_callback_lifecycle_msg.unpack resp.payload =
      .ok (msg, n))
    (hlook : EventMap.lookup events msg.callbackID = some sender)
    (hclosed : sender.closed = true) :
    ∃ e : IoError,
      LibvirtTransport.poll (InnerPoll.frame F :: rest) events =
          (.err e, rest, events) ∧
        e.kind = .invalidInput := by
  have hpe : LibvirtTransport.process_event events resp =
      .err ⟨.invalidInput, "send failed because receiver is gone"⟩ := by
    simp only [LibvirtTransport.process_event, hproc, if_pos, hmsg, hlook,
      hclosed, if_true]
  refine ⟨⟨.invalidInput, "send failed because receiver is gone"⟩, ?_, rfl⟩
  simp only [LibvirtTransport.poll, hdec, hpe]

/-- C5 witness: the subscriber for callback id 3 has a closed channel;
the poll surfaces an `InvalidInput` error. -/
theorem poll_event_delivery_failure_errors_witness :
    ∃ e : IoError,
      LibvirtTransport.poll
          [InnerPoll.frame (virNetMessageHeader.pack
              { prog := 1, vers := 1, proc_ := 348,
                type_ := .VIR_NET_MESSAGE, serial := 5,
                status := .VIR_NET_OK } ++
            [0, 0, 0, 3, 0, 0, 0, 1, 0, 0, 0, 2])]
          [(3, { closed := true, full := false, sent := [] })] =
          (.err e, [], [(3, { closed := true, full := false, sent := [] })]) ∧
        e.kind = .invalidInput :=
  poll_event_delivery_failure_errors
    (virNetMessageHeader.pack
        { prog := 1, vers := 1, proc_ := 348, type_ := .VIR_NET_MESSAGE,
          serial := 5, status := .VIR_NET_OK } ++
      [0, 0, 0, 3, 0, 0, 0, 1, 0, 0, 0, 2])
    [] [(3, { closed := true, full := false, sent := [] })] 5
    { header := { prog := 1, vers := 1, proc_ := 348,
                  type_ := .VIR_NET_MESSAGE, serial := 5,
                  status := .VIR_NET_OK },
      payload := [0, 0, 0, 3, 0, 0, 0, 1, 0, 0, 0, 2] }
    { callbackID := 3, event := 1, detail := 2 } 12
    { closed := true, full := false, sent := [] }
    (by rfl) (by rfl) (by rfl) (by rfl) (by rfl)

/-- C6: a decoded message whose type discriminant is `VIR_NET_STREAM`
(and whose procedure is not the lifecycle-callback event procedure,
which the transport checks first) is consumed and dropped: the poll
outcome is whatever the remaining frames yield, and the frame is never
returned as an `(id, Response)` reply. -/
theorem poll_stream_dropped
    (F : List Nat) (rest : List InnerPoll) (events : EventMap) (id : Nat)
    (resp : LibvirtResponse)
    (hdec : LibvirtCodec.decode F = .ok (some (id, resp)))
    (htype : resp.header.type_ = .VIR_NET_STREAM)
    (hproc : resp.header.proc_ % 2 ^ 16 ≠
      REMOTE_PROC_DOMAIN_EVENT_CALLBACK_LIFECYCLE) :
    LibvirtTransport.poll (InnerPoll.frame F :: rest) events =
      LibvirtTransport.poll rest events := by
  have hpe : LibvirtTransport.process_event events resp = .ok false events := by
    simp only [LibvirtTransport.process_event, if_neg hproc]
  have hst : LibvirtTransport.process_stream resp = true := by
    simp [LibvirtTransport.process_stream, htype]
  simp only [LibvirtTransport.poll, hdec, hpe, hst, if_true]

/-- C6 witness: a stream-typed frame for procedure 2 is dropped and the
poll continues with the remaining (empty) queue. -/
theorem poll_stream_dropped_witness :
    LibvirtTransport.poll
        [InnerPoll.frame (virNetMessageHeader.pack
            { prog := 1, vers := 1, proc_ := 2,
              type_ := .VIR_NET_STREAM, serial := 4,
              status := .VIR_NET_CONTINUE })] [] =
      LibvirtTransport.poll [] [] :=
  poll_stream_dropped
    (virNetMessageHeader.pack
      { prog := 1, vers := 1, proc_ := 2, type_ := .VIR_NET_STREAM,
        serial := 4, status := .VIR_NET_CONTINUE })
    [] [] 4
    { header := { prog := 1, vers := 1, proc_ := 2,
                  type_ := .VIR_NET_STREAM, serial := 4,
                  status := .VIR_NET_CONTINUE },
      payload := [] }
    (by rfl) (by rfl) (by decide)

/-- C8: on clean end-of-input (empty framed-stream queue, no partial
frame pending) every poll — the first and all subsequent ones — reports
stream completion `Ready(None)` with unchanged state, never an error. -/
theorem poll_eof_completion_repeats (n : Nat) (events : EventMap) :
    LibvirtTransport.pollN n [] events = (.ready none, [], events) := by
  induction n with
  | zero => rfl
  | succ n ih =>
      simpa only [LibvirtTransport.pollN, LibvirtTransport.poll] using ih

/-- C9: event classification is decided solely by the header's procedure
field, never by its message-type discriminant: a decoded message whose
procedure is the lifecycle-callback code is consumed as an event —
whatever the state of the router entry, the poll either continues with
the remaining frames (the event delivered or dropped) or propagates a
delivery error — and the frame is never surfaced to the caller, even
though its message-type discriminant marks it as an ordinary
`VIR_NET_REPLY`. -/
theorem poll_reply_typed_lifecycle_consumed_as_event
    (F : List Nat) (rest : List InnerPoll) (events : EventMap) (id : Nat)
    (resp : LibvirtResponse)
    (msg : remote_domain_event_callback_lifecycle_msg) (n : Nat)
    (hdec : LibvirtCodec.decode F = .ok (some (id, resp)))
    (htype : resp.header.type_ = .VIR_NET_REPLY)
    (hproc : resp.header.proc_ % 2 ^ 16 =
      REMOTE_PROC_DOMAIN_EVENT_CALLBACK_LIFECYCLE)
    (hmsg : remote_domain_event_callback_lifecycle_msg.unpack resp.payload =
      .ok (msg, n)) :
    (∃ events', LibvirtTransport.poll (InnerPoll.frame F :: rest) events =
        LibvirtTransport.poll rest events') ∨
      (∃ e, LibvirtTransport.poll (InnerPoll.frame F :: rest) events =
        (.err e, rest, events)) := by
  cases hlook : EventMap.lookup events msg.callbackID with
  | none =>
      refine Or.inl ⟨events, ?_⟩
      have hpe : LibvirtTransport.process_event events resp = .ok true events := by
        simp only [LibvirtTransport.process_event, hproc, if_pos, hmsg, hlook]
      simp only [LibvirtTransport.poll, hdec, hpe]
  | some sender =>
      by_cases hc : sender.closed = true
      · refine Or.inr
          ⟨⟨.invalidInput, "send failed because receiver is gone"⟩, ?_⟩
        have hpe : LibvirtTransport.process_event events resp =
            .err ⟨.invalidInput, "send failed because receiver is gone"⟩ := by
          simp only [LibvirtTransport.process_event, hproc, if_pos, hmsg, hlook,
            hc, if_true]
        simp only [LibvirtTransport.poll, hdec, hpe]
      · have hc' : sender.closed = false := eq_false_of_ne_true hc
        by_cases hf : sender.full = true
        · refine Or.inl ⟨events, ?_⟩
          have hpe : LibvirtTransport.process_event events resp =
              .ok true events := by
            simp only [LibvirtTransport.process_event, hproc, if_pos, hmsg,
              hlook, hc', hf, Bool.false_eq_true, if_false, if_true]
          simp only [LibvirtTransport.poll, hdec, hpe]
        · have hf' : sender.full = false := eq_false_of_ne_true hf
          refine Or.inl ⟨EventMap.update events msg.callbackID
            { sender with sent := sender.sent ++ [msg.into] }, ?_⟩
          simp only [LibvirtTransport.poll, hdec,
            process_event_delivers events resp msg n sender hproc hmsg hlook
              hc' hf']

/-- C9 witness: a frame typed `VIR_NET_REPLY` but carrying the lifecycle
procedure is consumed as an event (routed to subscriber 3), never
surfaced as a reply. -/
theorem poll_reply_typed_lifecycle_consumed_as_event_witness :
    (∃ events', LibvirtTransport.poll
        [InnerPoll.frame (virNetMessageHeader.pack
            { prog := 1, vers := 1, proc_ := 348,
              type_ := .VIR_NET_REPLY, serial := 8,
              status := .VIR_NET_OK } ++
          [0, 0, 0, 3, 0, 0, 0, 1, 0, 0, 0, 2])]
        [(3, { closed := false, full := false, sent := [] })] =
        LibvirtTransport.poll [] events') ∨
      (∃ e, LibvirtTransport.poll
        [InnerPoll.frame (virNetMessageHeader.pack
            { prog := 1, vers := 1, proc_ := 348,
              type_ := .VIR_NET_REPLY, serial := 8,
              status := .VIR_NET_OK } ++
          [0, 0, 0, 3, 0, 0, 0, 1, 0, 0, 0, 2])]
        [(3, { closed := false, full := false, sent := [] })] =
        (.err e, [], [(3, { closed := false, full := false, sent := [] })])) :=
  poll_reply_typed_lifecycle_consumed_as_event
    (virNetMessageHeader.pack
        { prog := 1, vers := 1, proc_ := 348, type_ := .VIR_NET_REPLY,
          serial := 8, status := .VIR_NET_OK } ++
      [0, 0, 0, 3, 0, 0, 0, 1, 0, 0, 0, 2])
    [] [(3, { closed := false, full := false, sent := [] })] 8
    { header := { prog := 1, vers := 1, proc_ := 348,
                  type_ := .VIR_NET_REPLY, serial := 8,
                  status := .VIR_NET_OK },
      payload := [0, 0, 0, 3, 0, 0, 0, 1, 0, 0, 0, 2] }
    { callbackID := 3, event := 1, detail := 2 } 12
    (by rfl) (by rfl) (by rfl) (by rfl)

/-- C10: a frame whose header procedure is the lifecycle-callback code
but whose payload does not parse as a lifecycle event message makes
`process_event` panic (the `unwrap` on the payload unpack) instead of
returning the failure as an error value through the poll interface. -/
theorem process_event_unwrap_panics :
    LibvirtTransport.poll
        [InnerPoll.frame (virNetMessageHeader.pack
            { prog := 1, vers := 1, proc_ := 348,
              type_ := .VIR_NET_MESSAGE, serial := 2,
              status := .VIR_NET_OK } ++ [1, 2, 3])] [] =
      (.panicked, [], []) := by
  decide
